import Mathlib

/-!
Shallow embedding of the device-trust and transfer-risk decision engine of
the banking backend (src/banking-app-backend.js).  JavaScript numbers that
can be NaN are modelled as `Option ℚ` with `none` standing for NaN; all
other finite numeric values are rationals.  The external risk scorer is
modelled by passing the outcome of its call (`Except Unit String`: either
the raw response text or a failure) into each operation that invokes it.
-/

set_option maxRecDepth 100000

/-- JS number that may be NaN (`none` = NaN, `some v` = the finite value). -/
abbrev JsNum := Option ℚ

/-- JS `x > c` comparison: false when `x` is NaN. -/
def jsGt (x : JsNum) (c : ℚ) : Bool :=
  match x with
  | none => false
  | some v => decide (c < v)

/-- JS `x <= c` comparison: false when `x` is NaN. -/
def jsLe (x : JsNum) (c : ℚ) : Bool :=
  match x with
  | none => false
  | some v => decide (v ≤ c)

/-- Exact rational subtraction, written over `mkRat` (shown equal to the
standard subtraction in `qSub_eq` below). -/
def qSub (a b : ℚ) : ℚ := mkRat (a.num * b.den - b.num * a.den) (a.den * b.den)

/-- Minimum of two rationals (shown equal to `min` in `qMin_eq` below). -/
def qMin (a b : ℚ) : ℚ := if a ≤ b then a else b

/-- Maximum of two rationals (shown equal to `max` in `qMax_eq` below). -/
def qMax (a b : ℚ) : ℚ := if a ≤ b then b else a

/-- `Math.min(1, Math.max(0, x))`: both propagate NaN, so NaN stays NaN. -/
def jsClamp01 (x : JsNum) : JsNum :=
  x.map (fun v => qMin 1 (qMax 0 v))

/-- Whether a JS number is a real value inside `[0, 1]` (NaN is not). -/
def scoreInUnit (x : JsNum) : Bool :=
  match x with
  | none => false
  | some v => decide (0 ≤ v) && decide (v ≤ 1)

/-- Whether `pat` is a prefix of `s` (structural, over character lists). -/
def matchesAt : List Char → List Char → Bool
  | [], _ => true
  | _ :: _, [] => false
  | p :: ps, c :: cs => p = c && matchesAt ps cs

/-- Whether `pat` occurs somewhere in `s` (structural substring search). -/
def containsSub (s pat : List Char) : Bool :=
  match s with
  | [] => pat.isEmpty
  | _ :: rest => matchesAt pat s || containsSub rest pat

/-- JS `haystack.includes(needle)`. -/
def containsStr (hay pat : String) : Bool :=
  containsSub hay.data pat.data

/-- Split accumulator for `jsSplit` (`acc` holds the current chunk,
reversed). -/
def splitCharAux (sep : Char) : List Char → List Char → List String
  | [], acc => [String.mk acc.reverse]
  | c :: rest, acc =>
    if c = sep then String.mk acc.reverse :: splitCharAux sep rest []
    else splitCharAux sep rest (c :: acc)

/-- JS `s.split(sep)` for a one-character separator (the only form the
backend uses). -/
def jsSplit (sep : Char) (s : String) : List String :=
  splitCharAux sep s.data []

/-- JS `s.trim()`: strip whitespace from both ends. -/
def jsTrim (s : String) : String :=
  String.mk (((s.data.dropWhile Char.isWhitespace).reverse.dropWhile Char.isWhitespace).reverse)

/-- Digits of the integer part consumed by `parseFloat`. -/
def pfDigits : List Char → (List Char × List Char)
  | [] => ([], [])
  | c :: rest =>
    if c.isDigit then
      let (ds, r) := pfDigits rest
      (c :: ds, r)
    else ([], c :: rest)

/-- Numeric value of a digit list read most-significant first. -/
def digitsVal (ds : List Char) : Nat :=
  ds.foldl (fun acc c => acc * 10 + (c.toNat - 48)) 0

/-- JS `parseFloat` on the trimmed token: skips leading whitespace, reads an
optional sign, an integer part, an optional fractional part and an optional
exponent, ignoring trailing garbage; `none` models a NaN result (no digits
at all).  Non-finite results do not arise on the inputs this development
uses, so they are not modelled. -/
def jsParseFloat (s : String) : Option ℚ :=
  let cs := s.data.dropWhile (fun c => c.isWhitespace)
  let (neg, cs) :=
    match cs with
    | '-' :: rest => (true, rest)
    | '+' :: rest => (false, rest)
    | _ => (false, cs)
  let (intDs, cs) := pfDigits cs
  let (fracDs, cs) :=
    match cs with
    | '.' :: rest => pfDigits rest
    | _ => ([], cs)
  if intDs.isEmpty && fracDs.isEmpty then
    none
  else
    let base : Int := (digitsVal intDs * 10 ^ fracDs.length + digitsVal fracDs : Nat)
    let base := if neg then -base else base
    let expPart : Option Int :=
      match cs with
      | 'e' :: rest | 'E' :: rest =>
        let (eneg, rest) :=
          match rest with
          | '-' :: r => (true, r)
          | '+' :: r => (false, r)
          | _ => (false, rest)
        let (eDs, _) := pfDigits rest
        if eDs.isEmpty then none
        else some (if eneg then -(digitsVal eDs : Int) else (digitsVal eDs : Int))
      | _ => none
    match expPart with
    | none => some (mkRat base (10 ^ fracDs.length))
    | some e =>
      if 0 ≤ e then some (mkRat (base * 10 ^ e.toNat) (10 ^ fracDs.length))
      else some (mkRat base (10 ^ fracDs.length * 10 ^ (-e).toNat))

/-!
SHA-256 (FIPS 180-4) over `Nat` with explicit reduction modulo `2 ^ 32`,
used to model Node's `crypto.createHash('sha256').update(s).digest('hex')`
on ASCII input (for ASCII strings, UTF-8 bytes coincide with code points).
-/

namespace SHA256

/-- Word size modulus. -/
def M32 : Nat := 4294967296

/-- Rotate a 32-bit word right by `n`. -/
def rotr (n x : Nat) : Nat := ((x >>> n) ||| (x <<< (32 - n))) % M32

/-- `Σ0` of the compression function. -/
def bSig0 (x : Nat) : Nat := (rotr 2 x) ^^^ (rotr 13 x) ^^^ (rotr 22 x)

/-- `Σ1` of the compression function. -/
def bSig1 (x : Nat) : Nat := (rotr 6 x) ^^^ (rotr 11 x) ^^^ (rotr 25 x)

/-- `σ0` of the message schedule. -/
def sSig0 (x : Nat) : Nat := (rotr 7 x) ^^^ (rotr 18 x) ^^^ (x >>> 3)

/-- `σ1` of the message schedule. -/
def sSig1 (x : Nat) : Nat := (rotr 17 x) ^^^ (rotr 19 x) ^^^ (x >>> 10)

/-- Choice function `Ch(x, y, z)`; `¬x` is xor against the 32-bit mask. -/
def ch (x y z : Nat) : Nat := (x &&& y) ^^^ ((x ^^^ 4294967295) &&& z)

/-- Majority function `Maj(x, y, z)`. -/
def maj (x y z : Nat) : Nat := (x &&& y) ^^^ (x &&& z) ^^^ (y &&& z)

/-- Round constants. -/
def K : List Nat :=
  [1116352408, 1899447441, 3049323471, 3921009573, 961987163,
   1508970993, 2453635748, 2870763221, 3624381080, 310598401,
   607225278, 1426881987, 1925078388, 2162078206, 2614888103,
   3248222580, 3835390401, 4022224774, 264347078, 604807628,
   770255983, 1249150122, 1555081692, 1996064986, 2554220882,
   2821834349, 2952996808, 3210313671, 3336571891, 3584528711,
   113926993, 338241895, 666307205, 773529912, 1294757372,
   1396182291, 1695183700, 1986661051, 2177026350, 2456956037,
   2730485921, 2820302411, 3259730800, 3345764771, 3516065817,
   3600352804, 4094571909, 275423344, 430227734, 506948616,
   659060556, 883997877, 958139571, 1322822218, 1537002063,
   1747873779, 1955562222, 2024104815, 2227730452, 2361852424,
   2428436474, 2756734187, 3204031479, 3329325298]

/-- Initial hash state. -/
def H0 : List Nat :=
  [1779033703, 3144134277, 1013904242, 2773480762, 1359893119,
   2600822924, 528734635, 1541459225]

/-- Pad a byte string per FIPS 180-4: append `0x80`, zeros to 56 mod 64,
then the bit length as eight big-endian bytes. -/
def pad (msg : List Nat) : List Nat :=
  let len := msg.length
  let bitLen := len * 8
  let zeros := (119 - len % 64) % 64
  msg ++ [0x80] ++ List.replicate zeros 0 ++
    [bitLen >>> 56 % 256, bitLen >>> 48 % 256, bitLen >>> 40 % 256,
     bitLen >>> 32 % 256, bitLen >>> 24 % 256, bitLen >>> 16 % 256,
     bitLen >>> 8 % 256, bitLen % 256]

/-- Group bytes into big-endian 32-bit words (input length a multiple of 4). -/
def toWords : List Nat → List Nat
  | b0 :: b1 :: b2 :: b3 :: rest =>
    (((b0 * 256 + b1) * 256 + b2) * 256 + b3) :: toWords rest
  | _ => []

/-- Split a word list into 16-word blocks. -/
def toBlocks : List Nat → List (List Nat)
  | w0 :: w1 :: w2 :: w3 :: w4 :: w5 :: w6 :: w7 ::
    w8 :: w9 :: w10 :: w11 :: w12 :: w13 :: w14 :: w15 :: rest =>
    [w0, w1, w2, w3, w4, w5, w6, w7,
     w8, w9, w10, w11, w12, w13, w14, w15] :: toBlocks rest
  | _ => []

/-- Extend the 16 block words to the 64-entry message schedule
(`acc` holds the schedule so far, most recent first). -/
def extendW (acc : List Nat) : Nat → List Nat
  | 0 => acc.reverse
  | n + 1 =>
    let w2 := acc.getD 1 0
    let w7 := acc.getD 6 0
    let w15 := acc.getD 14 0
    let w16 := acc.getD 15 0
    extendW (((sSig1 w2 + w7 + sSig0 w15 + w16) % M32) :: acc) n

/-- One compression round on the eight-word working state. -/
def round (st : List Nat) (kw : Nat × Nat) : List Nat :=
  match st with
  | [a, b, c, d, e, f, g, h] =>
    let t1 := (h + bSig1 e + ch e f g + kw.1 + kw.2) % M32
    let t2 := (bSig0 a + maj a b c) % M32
    [(t1 + t2) % M32, a, b, c, (d + t1) % M32, e, f, g]
  | other => other

/-- Process one 16-word block into the running hash state. -/
def processBlock (h : List Nat) (block : List Nat) : List Nat :=
  let w := extendW block.reverse 48
  let st := (K.zip w).foldl round h
  (h.zip st).map (fun p => (p.1 + p.2) % M32)

/-- Hex rendering of one 32-bit word as eight lowercase hex digits. -/
def wordHex (w : Nat) : String :=
  let hexDigit (n : Nat) : Char :=
    if n < 10 then Char.ofNat (48 + n) else Char.ofNat (87 + n)
  String.mk [hexDigit (w >>> 28 % 16), hexDigit (w >>> 24 % 16),
             hexDigit (w >>> 20 % 16), hexDigit (w >>> 16 % 16),
             hexDigit (w >>> 12 % 16), hexDigit (w >>> 8 % 16),
             hexDigit (w >>> 4 % 16), hexDigit (w % 16)]

/-- SHA-256 digest of a byte string, as a lowercase hex string. -/
def bytesHex (msg : List Nat) : String :=
  let final := (toBlocks (toWords (pad msg))).foldl processBlock H0
  String.join (final.map wordHex)

end SHA256

/-- SHA-256 hex digest of an ASCII string (code points are the UTF-8
bytes for the ASCII inputs this development evaluates). -/
def sha256hex (s : String) : String :=
  SHA256.bytesHex (s.data.map Char.toNat)

/-- `JSON.stringify` of a flat object of string fields, in insertion order
(as the backend applies it to the client-supplied fingerprint object). -/
def jsonStringify (attrs : List (String × String)) : String :=
  "\x7b" ++ String.intercalate "," (attrs.map (fun kv => "\"" ++ kv.1 ++ "\":\"" ++ kv.2 ++ "\"")) ++ "\x7d"

/-- Fingerprint digest: SHA-256 hex of the insertion-order JSON
serialization, exactly as computed by the backend handlers. -/
def digest (attrs : List (String × String)) : String :=
  sha256hex (jsonStringify attrs)

/-- `trustStatus` enum of the Device schema. -/
inductive TrustStatus
  | pending
  | trusted
  | restricted
  deriving DecidableEq, Repr

/-- `status` enum of the Transaction schema. -/
inductive TxStatus
  | pending
  | completed
  | failed
  | blocked
  deriving DecidableEq, Repr

/-- A User document (credential hashing is out of core scope, so the stored
password is modelled as the plain credential and comparison as equality). -/
structure User where
  id : Nat
  email : String
  password : String
  balance : ℚ
  deriving DecidableEq, Repr

/-- A Device document. -/
structure Device where
  userId : Nat
  fingerprint : String
  deviceInfo : List (String × String)
  isTrusted : Bool
  trustStatus : TrustStatus
  riskScore : JsNum
  riskReason : Option String
  lastLogin : Option Nat
  trustedDate : Option Nat
  deriving DecidableEq, Repr

/-- A Transaction document (the `fraudDetection` subdocument is inlined). -/
structure Transaction where
  senderId : Nat
  recipientEmail : String
  amount : ℚ
  purpose : Option String
  deviceFingerprint : String
  status : TxStatus
  riskScore : JsNum
  alerts : List String
  aiAnalysis : Option String
  completedAt : Option Nat
  deriving DecidableEq, Repr

/-- The document store: plain collections plus a counter supplying fresh
document ids (standing in for Mongo ObjectIds). -/
structure DB where
  users : List User
  devices : List Device
  transactions : List Transaction
  nextId : Nat
  deriving DecidableEq, Repr

/-- Result of `assessDeviceRisk`. -/
structure RiskAssessment where
  riskScore : JsNum
  reason : String
  deriving DecidableEq, Repr

/-- Result of `performFraudDetection`. -/
structure FraudAnalysis where
  riskScore : JsNum
  alerts : List String
  analysis : String
  deriving DecidableEq, Repr

/-- `lines.find(l => l.includes(tag))?.split(':')[1]?.trim()` — the shared
field-extraction idiom of both response parsers (`none` models JS
`undefined` anywhere along the optional chain). -/
def extractField (lines : List String) (tag : String) : Option String :=
  match lines.find? (fun l => containsStr l tag) with
  | none => none
  | some l =>
    match (jsSplit ':' l).get? 1 with
    | none => none
    | some part => some (jsTrim part)

/-- `assessDeviceRisk`: parse the scorer's raw response (`RISK_SCORE` /
`REASON` lines); a missing or empty score field falls back to `0.5` before
parsing, the parsed score is clamped via `Math.min(1, Math.max(0, ·))`,
and an outright call failure yields the fixed fallback result. -/
def assessDeviceRisk (scorerResult : Except Unit String) : RiskAssessment :=
  match scorerResult with
  | .error _ =>
    { riskScore := some (mkRat 3 5), reason := "Unable to perform AI risk assessment" }
  | .ok result =>
    let lines := jsSplit '\n' result
    let riskScore :=
      match extractField lines "RISK_SCORE" with
      | none => some (mkRat 1 2)
      | some s => if s = "" then some (mkRat 1 2) else jsParseFloat s
    let reason :=
      match extractField lines "REASON" with
      | none => "Automated risk assessment"
      | some s => if s = "" then "Automated risk assessment" else s
    { riskScore := jsClamp01 riskScore, reason := reason }

/-- `performFraudDetection`: parse the scorer's raw response
(`RISK_SCORE` / `ALERTS` / `ANALYSIS` lines) with default `0.3` for a
missing/empty score, clamp the score, and return the fixed fallback on an
outright call failure. -/
def performFraudDetection (scorerResult : Except Unit String) : FraudAnalysis :=
  match scorerResult with
  | .error _ =>
    { riskScore := some (mkRat 2 5), alerts := [], analysis := "Unable to perform AI analysis" }
  | .ok result =>
    let lines := jsSplit '\n' result
    let riskScore :=
      match extractField lines "RISK_SCORE" with
      | none => some (mkRat 3 10)
      | some s => if s = "" then some (mkRat 3 10) else jsParseFloat s
    let alerts :=
      match extractField lines "ALERTS" with
      | none => []
      | some s => (jsSplit ',' s).map jsTrim
    let analysis :=
      match extractField lines "ANALYSIS" with
      | none => "Normal"
      | some s => if s = "" then "Normal" else s
    { riskScore := jsClamp01 riskScore, alerts := alerts, analysis := analysis }

/-- Update the first list element satisfying `p` (a Mongo `save` of a
document found by a unique key). -/
def updateFirst (p : α → Bool) (f : α → α) : List α → List α
  | [] => []
  | x :: xs => if p x then f x :: xs else x :: updateFirst p f xs

/-- Response of `POST /api/auth/register` (success carries the new id). -/
inductive RegisterResult
  | missingFields
  | userExists
  | registered (userId : Nat)
  deriving DecidableEq, Repr

/-- `POST /api/auth/register`: create the user (balance takes the schema
default `10000`); when a fingerprint object is supplied, also create a
Device with the digest, the raw attributes, status `pending` and the
schema-default risk score `0.5`. -/
def register (db : DB) (email password : String)
    (deviceFingerprint : Option (List (String × String))) : RegisterResult × DB :=
  if email = "" || password = "" then (.missingFields, db)
  else if (db.users.find? (fun u => u.email = email)).isSome then (.userExists, db)
  else
    let user : User := { id := db.nextId, email := email, password := password, balance := 10000 }
    let db1 : DB := { db with users := db.users ++ [user], nextId := db.nextId + 1 }
    match deviceFingerprint with
    | none => (.registered user.id, db1)
    | some attrs =>
      let device : Device :=
        { userId := user.id, fingerprint := digest attrs, deviceInfo := attrs,
          isTrusted := false, trustStatus := .pending, riskScore := some (mkRat 1 2),
          riskReason := none, lastLogin := none, trustedDate := none }
      (.registered user.id, { db1 with devices := db1.devices ++ [device] })

/-- Response of `POST /api/auth/login`. -/
inductive LoginResult
  | missingFields
  | invalidCredentials
  | loggedIn (userId : Nat) (balance : ℚ)
  deriving DecidableEq, Repr

/-- `POST /api/auth/login`: authenticate, then handle the device: the
lookup is `Device.findOne(\x7b fingerprint \x7d)` — keyed on the digest alone,
with no `userId` filter, exactly as in the source; an unseen digest creates
a `pending` device with risk score `0.7`, and in either case `lastLogin`
of the resolved record is set to now. -/
def login (db : DB) (email password : String)
    (deviceFingerprint : Option (List (String × String))) (now : Nat) : LoginResult × DB :=
  if email = "" || password = "" then (.missingFields, db)
  else
    match db.users.find? (fun u => u.email = email) with
    | none => (.invalidCredentials, db)
    | some user =>
      if password ≠ user.password then (.invalidCredentials, db)
      else
        let db1 : DB :=
          match deviceFingerprint with
          | none => db
          | some attrs =>
            let deviceHash := digest attrs
            if (db.devices.find? (fun d => d.fingerprint = deviceHash)).isSome then
              let touched := updateFirst (fun d => d.fingerprint = deviceHash)
                (fun d => { d with lastLogin := some now }) db.devices
              { db with devices := touched }
            else
              let device : Device :=
                { userId := user.id, fingerprint := deviceHash, deviceInfo := attrs,
                  isTrusted := false, trustStatus := .pending, riskScore := some (mkRat 7 10),
                  riskReason := some "New device detected", lastLogin := some now,
                  trustedDate := none }
              { db with devices := db.devices ++ [device] }
        (.loggedIn user.id user.balance, db1)

/-- Response of `POST /api/devices/trust`. -/
inductive TrustResult
  | missingFields
  | deviceNotFound
  | highRisk (reason : String)
  | trustedOk
  deriving DecidableEq, Repr

/-- `POST /api/devices/trust`: resolve the device by `(userId, digest)`,
assess risk; a score `> 0.8` rejects leaving the device untouched,
otherwise the device becomes `trusted` with `trustedDate := now` and the
assessed score and reason stored. -/
def trustDevice (db : DB) (userId : Nat)
    (deviceFingerprint : Option (List (String × String)))
    (scorerResult : Except Unit String) (now : Nat) : TrustResult × DB :=
  match deviceFingerprint with
  | none => (.missingFields, db)
  | some attrs =>
    let deviceHash := digest attrs
    match db.devices.find? (fun d => d.userId = userId && d.fingerprint = deviceHash) with
    | none => (.deviceNotFound, db)
    | some _ =>
      let riskAssessment := assessDeviceRisk scorerResult
      if jsGt riskAssessment.riskScore (mkRat 4 5) then
        (.highRisk riskAssessment.reason, db)
      else
        let trustIt (d : Device) : Device :=
          { d with
            trustStatus := .trusted
            isTrusted := true
            trustedDate := some now
            riskScore := riskAssessment.riskScore
            riskReason := some riskAssessment.reason }
        let upd := updateFirst (fun d => d.userId = userId && d.fingerprint = deviceHash)
          trustIt db.devices
        (.trustedOk, { db with devices := upd })

/-- A transfer request body (fingerprint attributes included). -/
structure TransferReq where
  recipientEmail : String
  amount : ℚ
  purpose : Option String
  deviceFingerprint : List (String × String)
  deriving DecidableEq, Repr

/-- Response of `POST /api/transfers/create` (`decided` carries the saved
transaction status and the fraud analysis returned to the caller). -/
inductive TransferResp
  | missingFields
  | nonPositiveAmount
  | deviceNotTrusted
  | userNotFound
  | insufficientBalance
  | decided (status : TxStatus) (fraud : FraudAnalysis)
  deriving DecidableEq, Repr

/-- Full outcome of a transfer request: the response, the updated store and
whether the external scorer was invoked. -/
structure TransferOutcome where
  response : TransferResp
  db : DB
  scorerCalled : Bool
  deriving DecidableEq, Repr

/-- `POST /api/transfers/create`: validate, gate on a `trusted` device
resolved by `(userId, digest)`, check the user and the balance, then run
fraud detection; the transaction is created with status
`riskScore > 0.8 ? blocked : pending` and, when `riskScore <= 0.8`, the
balance is debited and the status overwritten to `completed` with
`completedAt := now`, before the single save of the transaction. -/
def createTransfer (db : DB) (userId : Nat) (req : TransferReq)
    (scorerResult : Except Unit String) (now : Nat) : TransferOutcome :=
  if req.recipientEmail = "" || req.amount = 0 then ⟨.missingFields, db, false⟩
  else if req.amount ≤ 0 then ⟨.nonPositiveAmount, db, false⟩
  else
    let deviceHash := digest req.deviceFingerprint
    match db.devices.find? (fun d => d.userId = userId && d.fingerprint = deviceHash) with
    | none => ⟨.deviceNotTrusted, db, false⟩
    | some device =>
      if device.trustStatus ≠ .trusted then ⟨.deviceNotTrusted, db, false⟩
      else
        match db.users.find? (fun u => u.id = userId) with
        | none => ⟨.userNotFound, db, false⟩
        | some user =>
          if user.balance < req.amount then ⟨.insufficientBalance, db, false⟩
          else
            let fraudAnalysis := performFraudDetection scorerResult
            let txBase : Transaction :=
              { senderId := userId, recipientEmail := req.recipientEmail,
                amount := req.amount, purpose := req.purpose,
                deviceFingerprint := deviceHash,
                status := if jsGt fraudAnalysis.riskScore (mkRat 4 5) then .blocked else .pending,
                riskScore := fraudAnalysis.riskScore, alerts := fraudAnalysis.alerts,
                aiAnalysis := some fraudAnalysis.analysis, completedAt := none }
            if jsLe fraudAnalysis.riskScore (mkRat 4 5) then
              let tx : Transaction := { txBase with status := .completed, completedAt := some now }
              let debited := updateFirst (fun u => u.id = userId)
                (fun u => { u with balance := qSub u.balance req.amount }) db.users
              ⟨.decided .completed fraudAnalysis,
               { db with users := debited, transactions := db.transactions ++ [tx] },
               true⟩
            else
              ⟨.decided txBase.status fraudAnalysis,
               { db with transactions := db.transactions ++ [txBase] }, true⟩

/-- One inbound request to a mutating endpoint (the two GET endpoints,
device status and transfer history, perform no writes in the source and
are omitted from the step relation). -/
inductive Op
  | opRegister (email password : String) (fp : Option (List (String × String)))
  | opLogin (email password : String) (fp : Option (List (String × String))) (now : Nat)
  | opTrust (userId : Nat) (fp : Option (List (String × String)))
      (scorerResult : Except Unit String) (now : Nat)
  | opTransfer (userId : Nat) (req : TransferReq)
      (scorerResult : Except Unit String) (now : Nat)

/-- Whether an operation is a trust request. -/
def Op.isTrustReq : Op → Bool
  | .opTrust _ _ _ _ => true
  | _ => false

/-- Store transition performed by one request. -/
def step (db : DB) : Op → DB
  | .opRegister e p fp => (register db e p fp).2
  | .opLogin e p fp now => (login db e p fp now).2
  | .opTrust uid fp sc now => (trustDevice db uid fp sc now).2
  | .opTransfer uid req sc now => (createTransfer db uid req sc now).db

/-- The empty store the service starts from. -/
def DB.init : DB := ⟨[], [], [], 0⟩

/-- Stores reachable from the empty store by any request sequence. -/
inductive Reachable : DB → Prop
  | init : Reachable DB.init
  | next {db : DB} (h : Reachable db) (op : Op) : Reachable (step db op)

/-! Concrete fixtures used by witnesses and counterexamples. -/

/-- Example fingerprint attributes. -/
def exAttrs : List (String × String) := [("deviceId", "d1"), ("platform", "ios")]

/-- The same attribute mapping with the field order permuted. -/
def exAttrsPerm : List (String × String) := [("platform", "ios"), ("deviceId", "d1")]

/-- Store after one registration carrying the example fingerprint (the
device is still `pending`). -/
def exPendingDB : DB := (register DB.init "a@x.com" "pw" (some exAttrs)).2

/-- Store after that device was granted trust by a low-score assessment. -/
def exTrustedDB : DB :=
  (trustDevice exPendingDB 0 (some exAttrs) (.ok "RISK_SCORE: 0.2\nREASON: fine") 10).2

/-- The still-`pending` device record held in `exPendingDB`. -/
def exPendingDevice : Device :=
  { userId := 0, fingerprint := digest exAttrs, deviceInfo := exAttrs,
    isTrusted := false, trustStatus := .pending, riskScore := some (mkRat 1 2),
    riskReason := none, lastLogin := none, trustedDate := none }

/-- The trusted device record held in `exTrustedDB`. -/
def exTrustedDevice : Device :=
  { userId := 0, fingerprint := digest exAttrs, deviceInfo := exAttrs,
    isTrusted := true, trustStatus := .trusted, riskScore := some (mkRat 1 5),
    riskReason := some "fine", lastLogin := none, trustedDate := some 10 }

/-- The account record held in `exTrustedDB`. -/
def exUser : User := { id := 0, email := "a@x.com", password := "pw", balance := 10000 }

/-- A transfer request of amount 50 from the example device. -/
def exReq50 : TransferReq := ⟨"r@x.com", 50, none, exAttrs⟩

/-- A transfer request whose amount exceeds the default balance. -/
def exReqBig : TransferReq := ⟨"r@x.com", 50000, none, exAttrs⟩

/-- A scorer response whose score field is non-numeric: `parseFloat` yields
NaN and the clamp keeps it. -/
def exNaNResp : String := "RISK_SCORE: high\nANALYSIS: odd"

/-- C3: the claim fails on the code: the digest is the hash of the
insertion-order `JSON.stringify` serialization, so permuting the field
order of the same attribute mapping changes the digest. -/
theorem c3_digest_depends_on_field_order :
    exAttrsPerm.Perm exAttrs ∧ digest exAttrs ≠ digest exAttrsPerm := by
  constructor
  · decide
  · decide

/-- C6: the claim fails on the code: a non-numeric score field survives
`parseFloat` as NaN and `Math.min(1, Math.max(0, ·))` keeps NaN, so the
parsed score of both assessments is not a value in `[0, 1]`. -/
theorem c6_nonnumeric_score_escapes_clamp :
    scoreInUnit (assessDeviceRisk (.ok "RISK_SCORE: high\nREASON: odd device")).riskScore = false ∧
    scoreInUnit (performFraudDetection (.ok exNaNResp)).riskScore = false := by
  decide

/-- C4: the claim fails on the code: with a non-numeric parsed score the
transaction is created as `pending` (`NaN > 0.8` is false), the completion
branch is also skipped (`NaN <= 0.8` is false), and the record is saved
still in the non-terminal status `pending`. -/
theorem c4_pending_transfer_persisted :
    ((createTransfer exTrustedDB 0 exReq50 (.ok exNaNResp) 20).db.transactions.map
      Transaction.status) = [TxStatus.pending] := by
  decide

/-- C1: the claim fails on the code: at a NaN score the assessed risk is
not strictly greater than 0.8, yet the transfer is neither blocked nor
completed — it is saved as `pending` with the balance undebited, so the
claimed two-way split on the score does not hold. -/
theorem c1_decision_split_fails_on_nan :
    jsGt (performFraudDetection (.ok exNaNResp)).riskScore (mkRat 4 5) = false ∧
    (createTransfer exTrustedDB 0 exReq50 (.ok exNaNResp) 20).response ≠
      .decided .completed (performFraudDetection (.ok exNaNResp)) ∧
    (createTransfer exTrustedDB 0 exReq50 (.ok exNaNResp) 20).db.transactions.map
      Transaction.status = [TxStatus.pending] ∧
    (createTransfer exTrustedDB 0 exReq50 (.ok exNaNResp) 20).db.users.map
      User.balance = [(10000 : ℚ)] := by
  decide

/-- C5: the claim fails on the code: the login-time device lookup is keyed
on the digest alone, so when account B logs in with the same raw
attributes that account A registered, the code resolves and touches A's
device record (updating its `lastLogin`) and creates no record for B. -/
theorem c5_login_resolves_other_accounts_device :
    (login (register (register DB.init "a@x.com" "pw" (some exAttrs)).2
        "b@x.com" "pw" none).2 "b@x.com" "pw" (some exAttrs) 99).1 =
      .loggedIn 1 10000 ∧
    (login (register (register DB.init "a@x.com" "pw" (some exAttrs)).2
        "b@x.com" "pw" none).2 "b@x.com" "pw" (some exAttrs) 99).2.devices.map
      (fun d => (d.userId, d.lastLogin)) = [(0, some 99)] := by
  decide

/-- C7 counterexample: the claim fails as stated: the fixed fallback
results carry the reasons of the source, not the reason text
`"assessment unavailable"` stated by the claim. -/
theorem c7_fallback_reason_differs :
    (assessDeviceRisk (.error ())).reason ≠ "assessment unavailable" ∧
    (performFraudDetection (.error ())).analysis ≠ "assessment unavailable" := by
  decide

/-! Bridge lemmas for the `mkRat`-based arithmetic, and facts about
`updateFirst`. -/

/-- `qSub` is ordinary rational subtraction. -/
theorem qSub_eq (a b : ℚ) : qSub a b = a - b := by
  rw [Rat.sub_def]
  simp [qSub, Rat.normalize_eq_mkRat]

/-- `qMin` is `min`. -/
theorem qMin_eq (a b : ℚ) : qMin a b = min a b := by
  simp [qMin, min_def]

/-- `qMax` is `max`. -/
theorem qMax_eq (a b : ℚ) : qMax a b = max a b := by
  simp [qMax, max_def]

/-- `updateFirst` preserves length. -/
theorem updateFirst_length (p : α → Bool) (f : α → α) (l : List α) :
    (updateFirst p f l).length = l.length := by
  induction l with
  | nil => rfl
  | cons x xs ih =>
    unfold updateFirst
    split <;> simp [ih]

/-- Each position of `updateFirst p f l` holds the old element or its
image under `f`. -/
theorem updateFirst_getD (p : α → Bool) (f : α → α) (l : List α)
    (i : Nat) (d : α) :
    (updateFirst p f l).getD i d = l.getD i d ∨
    (updateFirst p f l).getD i d = f (l.getD i d) := by
  induction l generalizing i with
  | nil => left; rfl
  | cons x xs ih =>
    simp only [updateFirst]
    by_cases hx : p x
    · rw [if_pos hx]
      cases i with
      | zero => right; rfl
      | succ j => left; rfl
    · rw [if_neg hx]
      cases i with
      | zero => left; rfl
      | succ j => simpa using ih j

/-- Every member of `updateFirst p f l` is a member of `l` or the image of
one under `f`. -/
theorem mem_updateFirst {p : α → Bool} {f : α → α} {l : List α} {y : α}
    (hy : y ∈ updateFirst p f l) : y ∈ l ∨ ∃ x ∈ l, y = f x := by
  induction l with
  | nil => simp [updateFirst] at hy
  | cons x xs ih =>
    simp only [updateFirst] at hy
    by_cases hx : p x
    · rw [if_pos hx] at hy
      rcases List.mem_cons.mp hy with h | h
      · exact Or.inr ⟨x, List.mem_cons_self x xs, h⟩
      · exact Or.inl (List.mem_cons_of_mem x h)
    · rw [if_neg hx] at hy
      rcases List.mem_cons.mp hy with h | h
      · exact Or.inl (h ▸ List.mem_cons_self x xs)
      · rcases ih h with h2 | ⟨z, hz, hzy⟩
        · exact Or.inl (List.mem_cons_of_mem x h2)
        · exact Or.inr ⟨z, List.mem_cons_of_mem x hz, hzy⟩

/-- When `f` does not change whether `p` holds, the element `find?`
resolves in `updateFirst p f l` is the image of the one it resolves
in `l`. -/
theorem find?_updateFirst (p : α → Bool) (f : α → α) (l : List α)
    (hf : ∀ a, p (f a) = p a) :
    (updateFirst p f l).find? p = (l.find? p).map f := by
  induction l with
  | nil => rfl
  | cons x xs ih =>
    simp only [updateFirst]
    by_cases hx : p x
    · rw [if_pos hx]
      rw [List.find?_cons_of_pos _ ((hf x).trans hx), List.find?_cons_of_pos _ hx]
      rfl
    · rw [if_neg hx]
      rw [List.find?_cons_of_neg _ hx, List.find?_cons_of_neg _ hx, ih]

/-- C2: for every account and transfer request whose fingerprint does not
resolve to a DeviceIdentity of that account with status exactly `trusted`
(no record, `pending` and `restricted` included), the transfer is rejected
with the device-not-trusted error, the store is unchanged (no Transfer
record, no balance change) and the scorer is never invoked. -/
theorem c2_untrusted_device_rejected
    (db : DB) (userId : Nat) (req : TransferReq)
    (sc : Except Unit String) (now : Nat)
    (hr : req.recipientEmail ≠ "") (ha : 0 < req.amount)
    (hdev : ∀ d ∈ db.devices,
      d.userId = userId → d.fingerprint = digest req.deviceFingerprint →
      d.trustStatus ≠ .trusted) :
    createTransfer db userId req sc now = ⟨.deviceNotTrusted, db, false⟩ := by
  simp only [createTransfer]
  rw [if_neg, if_neg]
  · split
    · rfl
    · next device hfind =>
        have hmem := List.mem_of_find?_eq_some hfind
        have hpred := List.find?_some hfind
        simp only [Bool.and_eq_true, decide_eq_true_eq] at hpred
        rw [if_pos (hdev device hmem hpred.1 hpred.2)]
  · exact not_le.mpr ha
  · simp only [Bool.or_eq_true, decide_eq_true_eq, not_or]
    exact ⟨hr, ne_of_gt ha⟩

/-- C2 witness: a request from the example account's still-`pending`
device is rejected concretely. -/
theorem c2_untrusted_device_rejected_witness :
    createTransfer exPendingDB 0 exReq50 (.ok "RISK_SCORE: 0.1") 20 =
      ⟨.deviceNotTrusted, exPendingDB, false⟩ :=
  c2_untrusted_device_rejected exPendingDB 0 exReq50 (.ok "RISK_SCORE: 0.1") 20
    (by decide) (by decide) (by decide)

/-- C8: for every account with balance B and transfer amount M > B from a
trusted device of an existing account, the transfer is rejected with the
insufficient-funds error, the store is unchanged (balance still B, no
Transfer record) and the scorer was never invoked — the rejection happens
before any Transfer record exists and before risk assessment. -/
theorem c8_insufficient_funds_rejected
    (db : DB) (userId : Nat) (req : TransferReq)
    (sc : Except Unit String) (now : Nat) (dv : Device) (u : User)
    (hr : req.recipientEmail ≠ "") (hpos : 0 < req.amount)
    (hd : db.devices.find?
      (fun d => d.userId = userId && d.fingerprint = digest req.deviceFingerprint) = some dv)
    (ht : dv.trustStatus = .trusted)
    (hu : db.users.find? (fun v => v.id = userId) = some u)
    (hb : u.balance < req.amount) :
    createTransfer db userId req sc now = ⟨.insufficientBalance, db, false⟩ := by
  simp only [createTransfer]
  rw [if_neg, if_neg]
  · split
    · next hfind => rw [hd] at hfind; cases hfind
    · next device hfind =>
        rw [hd] at hfind
        injection hfind with h
        subst h
        rw [if_neg (not_not_intro ht)]
        split
        · next hufind => rw [hu] at hufind; cases hufind
        · next user hufind =>
            rw [hu] at hufind
            injection hufind with h2
            subst h2
            rw [if_pos hb]
  · exact not_le.mpr hpos
  · simp only [Bool.or_eq_true, decide_eq_true_eq, not_or]
    exact ⟨hr, ne_of_gt hpos⟩

/-- C8 witness: amount 50000 against the default balance 10000 from the
trusted example device is rejected concretely with no side effect. -/
theorem c8_insufficient_funds_rejected_witness :
    createTransfer exTrustedDB 0 exReqBig (.ok "RISK_SCORE: 0.1") 20 =
      ⟨.insufficientBalance, exTrustedDB, false⟩ :=
  c8_insufficient_funds_rejected exTrustedDB 0 exReqBig (.ok "RISK_SCORE: 0.1") 20
    exTrustedDevice exUser (by decide) (by decide) (by decide) (by decide)
    (by decide) (by decide)

/-- C7 (amended): a failing scorer call never propagates: the device
assessment returns exactly score `0.6` with reason `'Unable to perform AI
risk assessment'`, the transfer assessment returns exactly score `0.4`
with an empty alert list and analysis `'Unable to perform AI analysis'`,
and a transfer that passes the gates still reaches a terminal decision on
this fallback: the Transfer is persisted as `completed` (`0.4 <= 0.8`). -/
theorem c7_fallback_policy (e : Unit) :
    assessDeviceRisk (.error e) =
      { riskScore := some (mkRat 3 5), reason := "Unable to perform AI risk assessment" } ∧
    performFraudDetection (.error e) =
      { riskScore := some (mkRat 2 5), alerts := [],
        analysis := "Unable to perform AI analysis" } ∧
    (∀ (db : DB) (userId : Nat) (req : TransferReq) (now : Nat) (dv : Device) (u : User),
      req.recipientEmail ≠ "" → 0 < req.amount →
      db.devices.find?
        (fun d => d.userId = userId && d.fingerprint = digest req.deviceFingerprint) = some dv →
      dv.trustStatus = .trusted →
      db.users.find? (fun v => v.id = userId) = some u →
      ¬ u.balance < req.amount →
      (createTransfer db userId req (.error e) now).scorerCalled = true ∧
      (createTransfer db userId req (.error e) now).response =
        .decided .completed (performFraudDetection (.error e)) ∧
      ∃ tx : Transaction,
        (createTransfer db userId req (.error e) now).db.transactions =
          db.transactions ++ [tx] ∧ tx.status = .completed) := by
  refine ⟨rfl, rfl, ?_⟩
  intro db userId req now dv u hr hpos hd ht hu hb
  have hred : createTransfer db userId req (.error e) now =
      ⟨.decided .completed (performFraudDetection (.error e)),
       { db with
           users := updateFirst (fun v => v.id = userId)
             (fun v => { v with balance := qSub v.balance req.amount }) db.users,
           transactions := db.transactions ++
             [{ senderId := userId, recipientEmail := req.recipientEmail,
                amount := req.amount, purpose := req.purpose,
                deviceFingerprint := digest req.deviceFingerprint,
                status := .completed,
                riskScore := (performFraudDetection (.error e)).riskScore,
                alerts := (performFraudDetection (.error e)).alerts,
                aiAnalysis := some (performFraudDetection (.error e)).analysis,
                completedAt := some now }] },
       true⟩ := by
    simp only [createTransfer]
    rw [if_neg, if_neg]
    · split
      · next hfind => rw [hd] at hfind; cases hfind
      · next device hfind =>
          rw [hd] at hfind
          injection hfind with h
          subst h
          rw [if_neg (not_not_intro ht)]
          split
          · next hufind => rw [hu] at hufind; cases hufind
          · next user hufind =>
              rw [hu] at hufind
              injection hufind with h2
              subst h2
              rw [if_neg hb,
                if_pos (show jsLe (performFraudDetection (Except.error e)).riskScore
                  (mkRat 4 5) = true from rfl)]
    · exact not_le.mpr hpos
    · simp only [Bool.or_eq_true, decide_eq_true_eq, not_or]
      exact ⟨hr, ne_of_gt hpos⟩
  rw [hred]
  exact ⟨rfl, rfl, _, rfl, rfl⟩

/-- C7 witness: the fallback policy evaluated on the trusted example store
with a failing scorer call. -/
theorem c7_fallback_policy_witness :
    (createTransfer exTrustedDB 0 exReq50 (.error ()) 20).scorerCalled = true ∧
    (createTransfer exTrustedDB 0 exReq50 (.error ()) 20).response =
      .decided .completed (performFraudDetection (.error ())) ∧
    ∃ tx : Transaction,
      (createTransfer exTrustedDB 0 exReq50 (.error ()) 20).db.transactions =
        exTrustedDB.transactions ++ [tx] ∧ tx.status = .completed :=
  (c7_fallback_policy ()).2.2 exTrustedDB 0 exReq50 20 exTrustedDevice exUser
    (by decide) (by decide) (by decide) (by decide) (by decide) (by decide)

/-- The transfer pipeline never writes the device collection. -/
theorem createTransfer_devices (db : DB) (userId : Nat) (req : TransferReq)
    (sc : Except Unit String) (now : Nat) :
    (createTransfer db userId req sc now).db.devices = db.devices := by
  simp only [createTransfer]
  split
  · rfl
  · split
    · rfl
    · split
      · rfl
      · split
        · rfl
        · split
          · rfl
          · split
            · rfl
            · split <;> rfl

/-- A trust request never writes the user collection. -/
theorem trustDevice_users (db : DB) (userId : Nat)
    (fp : Option (List (String × String))) (sc : Except Unit String) (now : Nat) :
    (trustDevice db userId fp sc now).2.users = db.users := by
  simp only [trustDevice]
  split
  · rfl
  · split
    · rfl
    · split <;> rfl

/-- C9: a trust request on an existing DeviceIdentity is rejected with the
assessed reason and the store left entirely unchanged when the assessed
score is strictly greater than 0.8; otherwise the device transitions to
`trusted` with `trustedDate := now` and the assessed score and reason
stored; and no operation other than a trust request ever produces a
`trusted` device that was not already trusted. -/
theorem c9_trust_request_decision :
    (∀ (db : DB) (userId : Nat) (attrs : List (String × String))
       (sc : Except Unit String) (now : Nat) (dv : Device),
      db.devices.find?
        (fun d => d.userId = userId && d.fingerprint = digest attrs) = some dv →
      jsGt (assessDeviceRisk sc).riskScore (mkRat 4 5) = true →
      trustDevice db userId (some attrs) sc now =
        (.highRisk (assessDeviceRisk sc).reason, db)) ∧
    (∀ (db : DB) (userId : Nat) (attrs : List (String × String))
       (sc : Except Unit String) (now : Nat) (dv : Device),
      db.devices.find?
        (fun d => d.userId = userId && d.fingerprint = digest attrs) = some dv →
      jsGt (assessDeviceRisk sc).riskScore (mkRat 4 5) = false →
      (trustDevice db userId (some attrs) sc now).1 = .trustedOk ∧
      (trustDevice db userId (some attrs) sc now).2.devices.find?
          (fun d => d.userId = userId && d.fingerprint = digest attrs) =
        some { dv with trustStatus := .trusted, isTrusted := true,
                       trustedDate := some now,
                       riskScore := (assessDeviceRisk sc).riskScore,
                       riskReason := some (assessDeviceRisk sc).reason } ∧
      (trustDevice db userId (some attrs) sc now).2.users = db.users ∧
      (trustDevice db userId (some attrs) sc now).2.transactions = db.transactions) ∧
    (∀ (db : DB) (op : Op), op.isTrustReq = false →
      ∀ d2 ∈ (step db op).devices, d2.trustStatus = .trusted →
        ∃ d1 ∈ db.devices, d1.userId = d2.userId ∧ d1.fingerprint = d2.fingerprint ∧
          d1.trustStatus = .trusted) := by
  refine ⟨?_, ?_, ?_⟩
  · intro db userId attrs sc now dv hd hgt
    simp only [trustDevice]
    split
    · next hfind => rw [hd] at hfind; cases hfind
    · next device hfind =>
        rw [if_pos hgt]
  · intro db userId attrs sc now dv hd hle
    have hred : trustDevice db userId (some attrs) sc now =
        (.trustedOk,
         { db with
             devices :=
               updateFirst (fun d => d.userId = userId && d.fingerprint = digest attrs)
                 (fun d =>
                   { d with
                     trustStatus := .trusted
                     isTrusted := true
                     trustedDate := some now
                     riskScore := (assessDeviceRisk sc).riskScore
                     riskReason := some (assessDeviceRisk sc).reason })
                 db.devices }) := by
      simp only [trustDevice]
      split
      · next hfind => rw [hd] at hfind; cases hfind
      · next device hfind =>
          rw [if_neg (by rw [hle]; exact Bool.false_ne_true)]
    rw [hred]
    refine ⟨rfl, ?_, rfl, rfl⟩
    show List.find? _ (updateFirst _ _ _) = _
    rw [find?_updateFirst
        (fun d => decide (d.userId = userId) && decide (d.fingerprint = digest attrs))
        (fun d =>
          { d with
            trustStatus := .trusted
            isTrusted := true
            trustedDate := some now
            riskScore := (assessDeviceRisk sc).riskScore
            riskReason := some (assessDeviceRisk sc).reason })
        db.devices (fun a => rfl), hd]
    rfl
  · intro db op hop d2 hd2 htr
    cases op with
    | opTrust uid fp sc now => cases hop
    | opRegister em pw fp =>
        simp only [step, register] at hd2
        split at hd2
        · exact ⟨d2, hd2, rfl, rfl, htr⟩
        · split at hd2
          · exact ⟨d2, hd2, rfl, rfl, htr⟩
          · cases fp with
            | none => exact ⟨d2, hd2, rfl, rfl, htr⟩
            | some attrs =>
                simp only [List.mem_append, List.mem_singleton] at hd2
                rcases hd2 with h | h
                · exact ⟨d2, h, rfl, rfl, htr⟩
                · rw [h] at htr; cases htr
    | opLogin em pw fp now =>
        simp only [step, login] at hd2
        split at hd2
        · exact ⟨d2, hd2, rfl, rfl, htr⟩
        · split at hd2
          · exact ⟨d2, hd2, rfl, rfl, htr⟩
          · next user hufind =>
              split at hd2
              · exact ⟨d2, hd2, rfl, rfl, htr⟩
              · cases fp with
                | none => exact ⟨d2, hd2, rfl, rfl, htr⟩
                | some attrs =>
                    simp only at hd2
                    split at hd2
                    · rcases mem_updateFirst hd2 with h | ⟨x, hx, hxy⟩
                      · exact ⟨d2, h, rfl, rfl, htr⟩
                      · subst hxy
                        exact ⟨x, hx, rfl, rfl, htr⟩
                    · simp only [List.mem_append, List.mem_singleton] at hd2
                      rcases hd2 with h | h
                      · exact ⟨d2, h, rfl, rfl, htr⟩
                      · rw [h] at htr; cases htr
    | opTransfer uid req sc now =>
        simp only [step] at hd2
        rw [createTransfer_devices] at hd2
        exact ⟨d2, hd2, rfl, rfl, htr⟩

/-- C9 witness: a 0.85 assessment rejects the example pending device and a
0.2 assessment trusts it; the login operation (not a trust request)
preserves the trusted-device set. -/
theorem c9_trust_request_decision_witness :
    (trustDevice exPendingDB 0 (some exAttrs) (.ok "RISK_SCORE: 0.85\nREASON: risky") 10 =
      (.highRisk (assessDeviceRisk (.ok "RISK_SCORE: 0.85\nREASON: risky")).reason,
       exPendingDB)) ∧
    ((trustDevice exPendingDB 0 (some exAttrs) (.ok "RISK_SCORE: 0.2\nREASON: fine") 10).1 =
       .trustedOk ∧
     (trustDevice exPendingDB 0 (some exAttrs)
         (.ok "RISK_SCORE: 0.2\nREASON: fine") 10).2.devices.find?
         (fun d => d.userId = 0 && d.fingerprint = digest exAttrs) =
       some { exPendingDevice with
               trustStatus := .trusted, isTrusted := true, trustedDate := some 10,
               riskScore :=
                 (assessDeviceRisk (.ok "RISK_SCORE: 0.2\nREASON: fine")).riskScore,
               riskReason :=
                 some (assessDeviceRisk (.ok "RISK_SCORE: 0.2\nREASON: fine")).reason } ∧
     (trustDevice exPendingDB 0 (some exAttrs)
         (.ok "RISK_SCORE: 0.2\nREASON: fine") 10).2.users = exPendingDB.users ∧
     (trustDevice exPendingDB 0 (some exAttrs)
         (.ok "RISK_SCORE: 0.2\nREASON: fine") 10).2.transactions =
       exPendingDB.transactions) ∧
    (∃ d1 ∈ exTrustedDB.devices,
      d1.userId = ({ exTrustedDevice with lastLogin := some 99 } : Device).userId ∧
      d1.fingerprint = ({ exTrustedDevice with lastLogin := some 99 } : Device).fingerprint ∧
      d1.trustStatus = .trusted) :=
  ⟨c9_trust_request_decision.1 exPendingDB 0 exAttrs
     (.ok "RISK_SCORE: 0.85\nREASON: risky") 10 exPendingDevice (by decide) (by decide),
   c9_trust_request_decision.2.1 exPendingDB 0 exAttrs
     (.ok "RISK_SCORE: 0.2\nREASON: fine") 10 exPendingDevice (by decide) (by decide),
   c9_trust_request_decision.2.2 exTrustedDB
     (.opLogin "a@x.com" "pw" (some exAttrs) 99) (by decide)
     { exTrustedDevice with lastLogin := some 99 } (by decide) (by decide)⟩

/-- Registration either leaves the user collection unchanged (rejection)
or appends exactly one user whose balance is the schema default 10000. -/
theorem register_users (db : DB) (em pw : String)
    (fp : Option (List (String × String))) :
    (register db em pw fp).2.users = db.users ∨
    (register db em pw fp).2.users =
      db.users ++ [{ id := db.nextId, email := em, password := pw, balance := 10000 }] := by
  simp only [register]
  split
  · left; rfl
  · split
    · left; rfl
    · cases fp <;> right <;> rfl

/-- Login never writes the user collection. -/
theorem login_users (db : DB) (em pw : String)
    (fp : Option (List (String × String))) (now : Nat) :
    (login db em pw fp now).2.users = db.users := by
  simp only [login]
  split
  · rfl
  · split
    · rfl
    · split
      · rfl
      · cases fp
        · rfl
        · dsimp only
          split <;> rfl

/-- The transfer pipeline leaves the user collection unchanged, or — only
with a positive amount — debits the sender's record in place. -/
theorem createTransfer_users (db : DB) (userId : Nat) (req : TransferReq)
    (sc : Except Unit String) (now : Nat) :
    (createTransfer db userId req sc now).db.users = db.users ∨
    (0 < req.amount ∧
      (createTransfer db userId req sc now).db.users =
        updateFirst (fun u => u.id = userId)
          (fun u => { u with balance := qSub u.balance req.amount }) db.users) := by
  simp only [createTransfer]
  split
  · left; rfl
  · split
    · left; rfl
    · next hpos =>
        split
        · left; rfl
        · split
          · left; rfl
          · split
            · left; rfl
            · split
              · left; rfl
              · split
                · right; exact ⟨lt_of_not_le hpos, rfl⟩
                · left; rfl

/-- C10: every account created by registration starts with balance exactly
10000; no operation ever increases a stored balance (positionally, every
user record's balance is monotonically non-increasing under every
operation); hence every account in every reachable store has balance at
most 10000. -/
theorem c10_balance_bounded :
    (∀ (db : DB) (em pw : String) (fp : Option (List (String × String))),
      em ≠ "" → pw ≠ "" → db.users.find? (fun u => u.email = em) = none →
      (register db em pw fp).2.users =
        db.users ++ [{ id := db.nextId, email := em, password := pw, balance := 10000 }]) ∧
    (∀ (db : DB) (op : Op) (u0 : User) (i : Nat), i < db.users.length →
      ((step db op).users.getD i u0).balance ≤ (db.users.getD i u0).balance) ∧
    (∀ db : DB, Reachable db → ∀ u ∈ db.users, u.balance ≤ 10000) := by
  have hdebit : ∀ (amt : ℚ), 0 < amt → ∀ u : User,
      (qSub u.balance amt) ≤ u.balance := by
    intro amt hamt u
    rw [qSub_eq]
    exact sub_le_self _ (le_of_lt hamt)
  refine ⟨?_, ?_, ?_⟩
  · intro db em pw fp hem hpw hnone
    simp only [register]
    rw [if_neg, if_neg]
    · cases fp <;> rfl
    · rw [hnone]
      simp
    · simp only [Bool.or_eq_true, decide_eq_true_eq, not_or]
      exact ⟨hem, hpw⟩
  · intro db op u0 i hi
    cases op with
    | opRegister em pw fp =>
        show ((register db em pw fp).2.users.getD i u0).balance ≤ _
        rcases register_users db em pw fp with h | h
        · rw [h]
        · rw [h, List.getD_append _ _ _ _ hi]
    | opLogin em pw fp now =>
        show ((login db em pw fp now).2.users.getD i u0).balance ≤ _
        rw [login_users]
    | opTrust uid fp sc now =>
        show ((trustDevice db uid fp sc now).2.users.getD i u0).balance ≤ _
        rw [trustDevice_users]
    | opTransfer uid req sc now =>
        show ((createTransfer db uid req sc now).db.users.getD i u0).balance ≤ _
        rcases createTransfer_users db uid req sc now with h | ⟨hamt, h⟩
        · rw [h]
        · rw [h]
          rcases updateFirst_getD (fun u => u.id = uid)
              (fun u => { u with balance := qSub u.balance req.amount })
              db.users i u0 with h2 | h2
          · rw [h2]
          · rw [h2]
            exact hdebit req.amount hamt _
  · intro db hreach
    induction hreach with
    | init => intro u hu; cases hu
    | next hprev op ih =>
        rename_i db0
        intro u hu
        cases op with
        | opRegister em pw fp =>
            rcases register_users db0 em pw fp with h | h
            · rw [show step db0 (.opRegister em pw fp) = (register db0 em pw fp).2 from rfl, h] at hu
              exact ih u hu
            · rw [show step db0 (.opRegister em pw fp) = (register db0 em pw fp).2 from rfl, h] at hu
              rcases List.mem_append.mp hu with h2 | h2
              · exact ih u h2
              · rw [List.mem_singleton.mp h2]
        | opLogin em pw fp now =>
            rw [show step db0 (.opLogin em pw fp now) = (login db0 em pw fp now).2 from rfl,
              login_users] at hu
            exact ih u hu
        | opTrust uid fp sc now =>
            rw [show step db0 (.opTrust uid fp sc now) = (trustDevice db0 uid fp sc now).2 from rfl,
              trustDevice_users] at hu
            exact ih u hu
        | opTransfer uid req sc now =>
            rcases createTransfer_users db0 uid req sc now with h | ⟨hamt, h⟩
            · rw [show step db0 (.opTransfer uid req sc now) =
                  (createTransfer db0 uid req sc now).db from rfl, h] at hu
              exact ih u hu
            · rw [show step db0 (.opTransfer uid req sc now) =
                  (createTransfer db0 uid req sc now).db from rfl, h] at hu
              rcases mem_updateFirst hu with h2 | ⟨x, hx, hxy⟩
              · exact ih u h2
              · subst hxy
                exact le_trans (hdebit req.amount hamt x) (ih x hx)

/-- C10 witness: a concrete registration creating the 10000 balance, a
concrete completed transfer that does not increase the stored balance, and
the bound evaluated on a concretely reachable store. -/
theorem c10_balance_bounded_witness :
    ((register DB.init "a@x.com" "pw" none).2.users =
      DB.init.users ++
        [{ id := DB.init.nextId, email := "a@x.com", password := "pw", balance := 10000 }]) ∧
    (((step exTrustedDB (.opTransfer 0 exReq50 (.ok "RISK_SCORE: 0.3") 20)).users.getD
        0 exUser).balance ≤ (exTrustedDB.users.getD 0 exUser).balance) ∧
    (∀ u ∈ exPendingDB.users, u.balance ≤ 10000) :=
  ⟨c10_balance_bounded.1 DB.init "a@x.com" "pw" none (by decide) (by decide) (by decide),
   c10_balance_bounded.2.1 exTrustedDB
     (.opTransfer 0 exReq50 (.ok "RISK_SCORE: 0.3") 20) exUser 0 (by decide),
   c10_balance_bounded.2.2 exPendingDB
     (Reachable.next Reachable.init (.opRegister "a@x.com" "pw" (some exAttrs)))⟩
